import Mathlib

/-!
Verification of the edf2asc conversion-pipeline specification against the
repository source `src/libedf2asc/opt.h`.

The repository fragment under `src/` contains only the configuration
contract: the `Opt` aggregate and the `NaN` missing-value macro.  The
pipeline stages themselves (Record Decoder, Coordinate/Resolution
Transformer, Velocity Computer, Filter & Selection Engine, Line
Formatter) are declared by the spec but their code is not present, so
they are modelled from the spec (each such definition is marked
`Modelled from the spec:`).

Embedding conventions: C `float` values are embedded as `ℚ` (the spec
values are exact decimals), C `int` fields used as boolean toggles as
`Bool`, multi-valued `int` selectors as `Int`, `char *` as
`Option String`, and the `FILE *` output handle as `Unit` (the output
sink is modelled separately as a byte list).
-/

/-- Missing floating-point value sentinel, from `opt.h`:
`#define NaN 1e8`. -/
def NaN : ℚ := 100000000

/-- Configuration aggregate, embedded field-for-field from the `Opt`
struct of `src/libedf2asc/opt.h` (the trailing `reparse*` fields are the
`EDF_REPARSER`-conditional ones). -/
structure Opt where
  events_enabled : Bool
  use_tabs : Bool
  output_event_type : Int
  msg_events_enabled : Bool
  output_resolution : Bool
  default_resolution_x : ℚ
  default_resolution_y : ℚ
  out_event_left : Bool
  out_event_right : Bool
  eye_events_enabled : Bool
  output_sample_type : Int
  out_sample_left : Bool
  output_sample_velocity : Bool
  out_sample_right : Bool
  out_events : Bool
  logmsg : Bool
  preferred_sample_type : Int
  out_sample_flags : Bool
  out_marker_fields : Bool
  out_averages : Bool
  fast_velocity : Bool
  output_left_eye : Bool
  output_right_eye : Bool
  samples_enabled : Bool
  start_events_enabled : Bool
  enable_consistency_check : Bool
  verbose : Bool
  hide_viewer_commands : Bool
  logfile_name : Option String
  new_path : Option String
  outfile : Unit
  output_elcl : Bool
  overwrite_asc_ifexists : Bool
  out_float_time : Bool
  output_input_values : Bool
  output_button_values : Bool
  enable_failsafe : Bool
  enable_htarget : Bool
  Utf8BOM : Bool
  disable_large_time_stamp_check : Bool
  allow_raw : Bool
  disable_pa_check : Bool
  simulation_screen_distance : ℚ
  simulation_screen_distance_bot : ℚ
  screen_phys_l : ℚ
  screen_phys_t : ℚ
  screen_phys_r : ℚ
  screen_phys_b : ℚ
  screen_pixel_l : ℚ
  screen_pixel_t : ℚ
  screen_pixel_r : ℚ
  screen_pixel_b : ℚ
  sepres : Bool
  reparse : Int
  reparse_input : List String
  reparse_config : Option String
deriving DecidableEq

/-- Default geometry of `opt.h` (the commented default initialisers:
distances 700/760, physical rectangle (-200,150,200,-150), pixel
rectangle (0,0,1023,767)), with every toggle off.  Used as the base
configuration for concrete scenarios. -/
def defaultOpt : Opt :=
  { events_enabled := false, use_tabs := false, output_event_type := 0
    msg_events_enabled := false, output_resolution := false
    default_resolution_x := 1, default_resolution_y := 1
    out_event_left := false, out_event_right := false
    eye_events_enabled := false, output_sample_type := 0
    out_sample_left := false, output_sample_velocity := false
    out_sample_right := false, out_events := false, logmsg := false
    preferred_sample_type := 0, out_sample_flags := false
    out_marker_fields := false, out_averages := false
    fast_velocity := false, output_left_eye := false
    output_right_eye := false, samples_enabled := false
    start_events_enabled := false, enable_consistency_check := false
    verbose := false, hide_viewer_commands := false
    logfile_name := none, new_path := none, outfile := ()
    output_elcl := false, overwrite_asc_ifexists := false
    out_float_time := false, output_input_values := false
    output_button_values := false, enable_failsafe := false
    enable_htarget := false, Utf8BOM := false
    disable_large_time_stamp_check := false, allow_raw := false
    disable_pa_check := false
    simulation_screen_distance := 700, simulation_screen_distance_bot := 760
    screen_phys_l := -200, screen_phys_t := 150
    screen_phys_r := 200, screen_phys_b := -150
    screen_pixel_l := 0, screen_pixel_t := 0
    screen_pixel_r := 1023, screen_pixel_b := 767
    sepres := false, reparse := 0, reparse_input := [], reparse_config := none }

/-- Modelled from the spec: the gaze coordinate mapping of the
Coordinate/Resolution Transformer (section 4.2, code missing from
`src/`): the affine map taking a raw x coordinate in the physical
screen rectangle `screen_phys_l..screen_phys_r` linearly onto the pixel
rectangle `screen_pixel_l..screen_pixel_r`; coordinates outside the
physical rectangle are linearly extrapolated, never clamped. -/
def gazeOfRawX (o : Opt) (x : ℚ) : ℚ :=
  o.screen_pixel_l +
    (x - o.screen_phys_l) * (o.screen_pixel_r - o.screen_pixel_l)
      / (o.screen_phys_r - o.screen_phys_l)

/-- Modelled from the spec: the y component of the gaze mapping,
taking `screen_phys_t..screen_phys_b` onto
`screen_pixel_t..screen_pixel_b` (code missing from `src/`). -/
def gazeOfRawY (o : Opt) (y : ℚ) : ℚ :=
  o.screen_pixel_t +
    (y - o.screen_phys_t) * (o.screen_pixel_b - o.screen_pixel_t)
      / (o.screen_phys_b - o.screen_phys_t)

/-- Modelled from the spec: the inverse affine transform of
`gazeOfRawX` (section 8 round-trip property; code missing from
`src/`). -/
def rawOfGazeX (o : Opt) (gx : ℚ) : ℚ :=
  o.screen_phys_l +
    (gx - o.screen_pixel_l) * (o.screen_phys_r - o.screen_phys_l)
      / (o.screen_pixel_r - o.screen_pixel_l)

/-- Modelled from the spec: the inverse affine transform of
`gazeOfRawY` (code missing from `src/`). -/
def rawOfGazeY (o : Opt) (gy : ℚ) : ℚ :=
  o.screen_phys_t +
    (gy - o.screen_pixel_t) * (o.screen_phys_b - o.screen_phys_t)
      / (o.screen_pixel_b - o.screen_pixel_t)

/-- C3: for the physical screen rectangle (-200,150,200,-150) and pixel
rectangle (0,0,1023,767) of the claim (the `opt.h` defaults), mapping
any known raw coordinate to gaze coordinates and applying the inverse
affine transform reproduces the original coordinate exactly, hence in
particular to within any fixed positive tolerance (shown here for
tolerance 1/1000).  Coordinates outside the physical rectangle are
covered by the universal quantifier: the map extrapolates linearly and
never clamps. -/
theorem gaze_roundtrip_default
    (x y : ℚ) :
    rawOfGazeX defaultOpt (gazeOfRawX defaultOpt x) = x ∧
    rawOfGazeY defaultOpt (gazeOfRawY defaultOpt y) = y ∧
    |rawOfGazeX defaultOpt (gazeOfRawX defaultOpt x) - x| ≤ 1/1000 ∧
    |rawOfGazeY defaultOpt (gazeOfRawY defaultOpt y) - y| ≤ 1/1000 := by
  have hx : rawOfGazeX defaultOpt (gazeOfRawX defaultOpt x) = x := by
    simp only [rawOfGazeX, gazeOfRawX, defaultOpt]
    ring_nf
  have hy : rawOfGazeY defaultOpt (gazeOfRawY defaultOpt y) = y := by
    simp only [rawOfGazeY, gazeOfRawY, defaultOpt]
    ring_nf
  refine ⟨hx, hy, ?_, ?_⟩
  · rw [hx]; simp
  · rw [hy]; simp

/-- Eye selector for per-eye sample fields. -/
inductive Eye where
  | left
  | right
deriving DecidableEq, Repr

/-- Coordinate axis selector. -/
inductive Axis where
  | x
  | y
deriving DecidableEq, Repr

/-- Modelled from the spec: a decoded Sample record (section 3, code
missing from `src/`): timestamp plus per-eye x/y coordinates and pupil
size; an absent measurement holds the sentinel `NaN`. -/
structure Sample where
  t : ℚ
  xl : ℚ
  yl : ℚ
  pl : ℚ
  xr : ℚ
  yr : ℚ
  pr : ℚ
deriving DecidableEq, Repr

/-- Coordinate of a sample for a given eye and axis. -/
def Sample.coord (s : Sample) (e : Eye) (a : Axis) : ℚ :=
  match e, a with
  | .left, .x => s.xl
  | .left, .y => s.yl
  | .right, .x => s.xr
  | .right, .y => s.yr

/-- Modelled from the spec: a sample has a missing-value coordinate for
an eye when either of that eye's coordinates is the sentinel. -/
def missingSample (s : Sample) (e : Eye) : Bool :=
  s.coord e .x == NaN || s.coord e .y == NaN

/-- Modelled from the spec: the Velocity/Derived-Field Computer
(section 4.3, code missing from `src/`).  Per-sample per-axis velocity
over a continuous run of samples: `fast` selects the fast
finite-difference estimator (previous-to-current), otherwise the
smoothed windowed estimator (symmetric difference over the
previous/next window).  Edge policy: at the run boundaries (first and
last sample) and whenever the sample or either adjacent sample has a
missing-value coordinate for the eye, the velocity is the sentinel
`NaN`, never zero and never extrapolated. -/
def velocityAt (fast : Bool) (run : List Sample) (e : Eye) (a : Axis)
    (i : Nat) : ℚ :=
  if i = 0 ∨ run.length ≤ i + 1 then NaN
  else
    match run[i - 1]?, run[i]?, run[i + 1]? with
    | some p, some c, some n =>
        if missingSample c e || missingSample p e || missingSample n e then
          NaN
        else if fast then
          (c.coord e a - p.coord e a) / (c.t - p.t)
        else
          (n.coord e a - p.coord e a) / (n.t - p.t)
    | _, _, _ => NaN

/-- Modelled from the spec: degeneracy of the screen mapping (section
4.2, code missing from `src/`): the physical or pixel rectangle has a
zero extent on some axis, so the affine mapping cannot be
established. -/
def degenerateMapping (o : Opt) : Bool :=
  o.screen_phys_l == o.screen_phys_r || o.screen_phys_t == o.screen_phys_b
    || o.screen_pixel_l == o.screen_pixel_r
    || o.screen_pixel_t == o.screen_pixel_b

/-- Modelled from the spec: per-sample resolution (samples per degree)
of the Coordinate/Resolution Transformer (section 4.2, code missing
from `src/`), computed from `default_resolution_x/y` and the active
screen mapping; the sentinel is propagated verbatim for a
missing-value sample, and a degenerate rectangle yields the sentinel
rather than failing the run. -/
def resolutionAt (o : Opt) (s : Sample) (e : Eye) (a : Axis) : ℚ :=
  if missingSample s e then NaN
  else if degenerateMapping o then NaN
  else
    match a with
    | .x => o.default_resolution_x
        * ((o.screen_pixel_r - o.screen_pixel_l)
            / (o.screen_phys_r - o.screen_phys_l))
    | .y => o.default_resolution_y
        * ((o.screen_pixel_b - o.screen_pixel_t)
            / (o.screen_phys_b - o.screen_phys_t))

/-- C1: every derived value computed from a sample with a missing-value
coordinate for an eye is itself the sentinel: the per-sample velocity
(under either algorithm, at any index of any run holding that sample)
and both resolution components are `NaN`, propagated verbatim rather
than computed. -/
theorem missing_sample_derived_missing
    (fast : Bool) (run : List Sample) (o : Opt) (s : Sample) (e : Eye)
    (a : Axis) (i : Nat)
    (hs : run[i]? = some s)
    (hm : missingSample s e = true) :
    velocityAt fast run e a i = NaN ∧ resolutionAt o s e a = NaN := by
  constructor
  · unfold velocityAt
    by_cases hb : i = 0 ∨ run.length ≤ i + 1
    · simp [hb]
    · simp only [hb, if_false]
      rcases hp : run[i - 1]? with _ | p
      · simp [hp]
      rcases hn : run[i + 1]? with _ | n
      · simp [hp, hs, hn]
      · simp [hp, hs, hn, hm]
  · unfold resolutionAt
    simp [hm]

/-- C1 witness: a concrete one-sample situation discharging the
hypotheses of `missing_sample_derived_missing`. -/
theorem missing_sample_derived_missing_witness :
    velocityAt true [⟨0, NaN, 1, 2, 3, 4, 5⟩] .left .x 0 = NaN ∧
    resolutionAt defaultOpt ⟨0, NaN, 1, 2, 3, 4, 5⟩ .left .x = NaN :=
  missing_sample_derived_missing true [⟨0, NaN, 1, 2, 3, 4, 5⟩]
    defaultOpt ⟨0, NaN, 1, 2, 3, 4, 5⟩ .left .x 0 (by rfl) (by decide)

/-- C7: under both `fast_velocity` settings, the computed velocity at
the first and at the last sample of a continuous run is the sentinel
`NaN`, and the velocity at any sample whose previous or next neighbour
has a missing-value coordinate for the eye is also `NaN` — never zero
and never extrapolated. -/
theorem velocity_edge_policy (fast : Bool) (run : List Sample) (e : Eye)
    (a : Axis) :
    velocityAt fast run e a 0 = NaN ∧
    velocityAt fast run e a (run.length - 1) = NaN ∧
    (∀ i p, run[i - 1]? = some p → missingSample p e = true →
      velocityAt fast run e a i = NaN) ∧
    (∀ i n, run[i + 1]? = some n → missingSample n e = true →
      velocityAt fast run e a i = NaN) := by
  refine ⟨?_, ?_, ?_, ?_⟩
  · unfold velocityAt
    rw [if_pos (Or.inl rfl)]
  · unfold velocityAt
    rw [if_pos (Or.inr (by omega))]
  · intro i p hp hm
    unfold velocityAt
    by_cases hb : i = 0 ∨ run.length ≤ i + 1
    · rw [if_pos hb]
    · rw [if_neg hb]
      rcases hc : run[i]? with _ | c
      · simp [hp, hc]
      rcases hn : run[i + 1]? with _ | n
      · simp [hp, hc, hn]
      · simp [hp, hc, hn, hm]
  · intro i n hn hm
    unfold velocityAt
    by_cases hb : i = 0 ∨ run.length ≤ i + 1
    · rw [if_pos hb]
    · rw [if_neg hb]
      rcases hp : run[i - 1]? with _ | p
      · simp [hp]
      rcases hc : run[i]? with _ | c
      · simp [hp, hc]
      · simp [hp, hc, hn, hm]

/-- C7 witness: concrete three-sample runs discharging the adjacency
hypotheses of `velocity_edge_policy` for both algorithm settings (the
middle sample is adjacent to a missing-value first sample). -/
theorem velocity_edge_policy_witness :
    velocityAt true
      [⟨0, NaN, 1, 2, 3, 4, 5⟩, ⟨1, 6, 7, 8, 9, 10, 11⟩,
        ⟨2, 12, 13, 14, 15, 16, 17⟩] .left .x 1 = NaN ∧
    velocityAt false
      [⟨0, NaN, 1, 2, 3, 4, 5⟩, ⟨1, 6, 7, 8, 9, 10, 11⟩,
        ⟨2, 12, 13, 14, 15, 16, 17⟩] .left .x 1 = NaN :=
  ⟨(velocity_edge_policy true
      [⟨0, NaN, 1, 2, 3, 4, 5⟩, ⟨1, 6, 7, 8, 9, 10, 11⟩,
        ⟨2, 12, 13, 14, 15, 16, 17⟩] .left .x).2.2.1 1
      ⟨0, NaN, 1, 2, 3, 4, 5⟩ (by rfl) (by decide),
   (velocity_edge_policy false
      [⟨0, NaN, 1, 2, 3, 4, 5⟩, ⟨1, 6, 7, 8, 9, 10, 11⟩,
        ⟨2, 12, 13, 14, 15, 16, 17⟩] .left .x).2.2.1 1
      ⟨0, NaN, 1, 2, 3, 4, 5⟩ (by rfl) (by decide)⟩

/-- Modelled from the spec: the resolution fields the Line Formatter
emits for a sample (section 4.5, code missing from `src/`): when
`output_resolution` is requested, an x and a y resolution value for
each selected eye, otherwise none. -/
def resolutionFields (o : Opt) (s : Sample) : List ℚ :=
  if o.output_resolution then
    (if o.out_sample_left then
      [resolutionAt o s .left .x, resolutionAt o s .left .y] else [])
    ++ (if o.out_sample_right then
      [resolutionAt o s .right .x, resolutionAt o s .right .y] else [])
  else []

/-- C5: when `output_resolution` is requested and the screen mapping is
degenerate, the resolution computation does not fail the run: it is a
total function whose every emitted resolution field is the
missing-value sentinel `NaN`. -/
theorem degenerate_resolution_is_sentinel (o : Opt) (s : Sample)
    (ho : o.output_resolution = true)
    (hd : degenerateMapping o = true) :
    (∀ e a, resolutionAt o s e a = NaN) ∧
    (∀ r ∈ resolutionFields o s, r = NaN) := by
  have hres : ∀ e a, resolutionAt o s e a = NaN := by
    intro e a
    unfold resolutionAt
    by_cases hm : missingSample s e = true
    · simp [hm]
    · simp [hm, hd]
  refine ⟨hres, ?_⟩
  intro r hr
  unfold resolutionFields at hr
  rw [ho] at hr
  simp only [if_true] at hr
  rcases List.mem_append.mp hr with h | h <;>
    [skip; skip] <;>
    · split at h <;> simp_all [hres]

/-- C5 witness: a concrete degenerate configuration (physical rectangle
of zero width) discharging the hypotheses of
`degenerate_resolution_is_sentinel`. -/
theorem degenerate_resolution_is_sentinel_witness :
    (∀ e a, resolutionAt
      { defaultOpt with output_resolution := true, screen_phys_r := -200 }
      ⟨0, 1, 2, 3, 4, 5, 6⟩ e a = NaN) ∧
    (∀ r ∈ resolutionFields
      { defaultOpt with output_resolution := true, screen_phys_r := -200 }
      ⟨0, 1, 2, 3, 4, 5, 6⟩, r = NaN) :=
  degenerate_resolution_is_sentinel
    { defaultOpt with output_resolution := true, screen_phys_r := -200 }
    ⟨0, 1, 2, 3, 4, 5, 6⟩ (by rfl) (by decide)

/-- Missing-value token spelled exactly as the ASC compatibility
contract requires: the literal `1e8`. -/
def missingToken : String := "1e8"

/-- Modelled from the spec: the Line Formatter rendering of one numeric
field (section 4.5, code missing from `src/`): a missing-value field is
rendered as exactly the missing-value token, any other value by the
ordinary numeric rendering. -/
def formatValue (x : ℚ) : String :=
  if x == NaN then missingToken else toString x

/-- Modelled from the spec: field separator selected by `use_tabs`. -/
def fieldSep (o : Opt) : String :=
  if o.use_tabs then String.singleton (Char.ofNat 9) else " "

/-- Modelled from the spec: the per-eye numeric sample fields the Line
Formatter emits for a sample (section 4.5, code missing from `src/`):
coordinates and pupil size for each selected eye, followed by the
resolution fields when requested. -/
def sampleFieldValues (o : Opt) (s : Sample) : List ℚ :=
  (if o.out_sample_left then [s.xl, s.yl, s.pl] else [])
    ++ (if o.out_sample_right then [s.xr, s.yr, s.pr] else [])
    ++ resolutionFields o s

/-- Modelled from the spec: the full rendered sample line: timestamp
token followed by the rendered numeric fields, joined by the configured
separator. -/
def formatSampleLine (o : Opt) (s : Sample) : String :=
  String.intercalate (fieldSep o)
    (toString s.t :: (sampleFieldValues o s).map formatValue)

/-- C2: the missing-value sentinel used throughout the pipeline is the
numeric value 1e8 (the `NaN` macro of `opt.h`), and for every
configuration and every sample, every emitted field position holding
the sentinel is rendered by the Line Formatter as exactly the token
`1e8`. -/
theorem missing_token_is_1e8 (o : Opt) (s : Sample) (i : Nat) (x : ℚ)
    (hx : (sampleFieldValues o s)[i]? = some x)
    (hm : x = NaN) :
    NaN = 100000000 ∧
    missingToken = "1e8" ∧
    ((sampleFieldValues o s).map formatValue)[i]? = some "1e8" := by
  refine ⟨rfl, rfl, ?_⟩
  rw [List.getElem?_map, hx]
  simp [formatValue, hm, missingToken]

/-- C2 witness: a concrete configuration and sample with a missing
right-eye coordinate discharging the hypotheses of
`missing_token_is_1e8`. -/
theorem missing_token_is_1e8_witness :
    NaN = 100000000 ∧
    missingToken = "1e8" ∧
    ((sampleFieldValues
      { defaultOpt with out_sample_left := true, out_sample_right := true }
      ⟨1000, 512, 384, 900, NaN, NaN, 0⟩).map formatValue)[3]?
      = some "1e8" :=
  missing_token_is_1e8
    { defaultOpt with out_sample_left := true, out_sample_right := true }
    ⟨1000, 512, 384, 900, NaN, NaN, 0⟩ 3 NaN (by rfl) rfl

/-- UTF-8 byte-order-mark octets. -/
def UTF8BOMbytes : List Nat := [239, 187, 191]

/-- Modelled from the spec: output-stream initialisation of the Line
Formatter (section 4.5, code missing from `src/`): when `Utf8BOM` is
set, the byte-order-mark is written once when the stream is opened,
before any record line; otherwise nothing is written. -/
def openStream (o : Opt) : List Nat := if o.Utf8BOM then UTF8BOMbytes else []

/-- Modelled from the spec: appending one rendered record line to the
already-written output bytes. -/
def writeRecordBytes (acc : List Nat) (line : List Nat) : List Nat :=
  acc ++ line

/-- Modelled from the spec: a whole conversion run's output stream: the
stream is opened (BOM policy applied once) and then every rendered
record line is appended in order. -/
def runOutput (o : Opt) (lines : List (List Nat)) : List Nat :=
  lines.foldl writeRecordBytes (openStream o)

/-- Folding the record writer over any already-written bytes appends
exactly the concatenation of the record lines. -/
theorem foldl_writeRecordBytes (acc : List Nat) (lines : List (List Nat)) :
    lines.foldl writeRecordBytes acc = acc ++ lines.flatten := by
  induction lines generalizing acc with
  | nil => simp
  | cons l ls ih => simp [writeRecordBytes, ih, List.append_assoc]

/-- C6: when `Utf8BOM` is set the output stream's first three bytes are
the UTF-8 byte-order-mark and the remainder is exactly the
concatenation of the record lines — so the BOM appears before any
record line and exactly once per stream, regardless of how many records
are converted; when `Utf8BOM` is unset the stream is exactly the
concatenated record lines with no BOM written. -/
theorem bom_first_and_once :
    (∀ (o : Opt) (lines : List (List Nat)), o.Utf8BOM = true →
      (runOutput o lines).take 3 = UTF8BOMbytes ∧
      (runOutput o lines).drop 3 = lines.flatten) ∧
    (∀ (o : Opt) (lines : List (List Nat)), o.Utf8BOM = false →
      runOutput o lines = lines.flatten) := by
  constructor
  · intro o lines hb
    rw [runOutput, foldl_writeRecordBytes, openStream, hb, if_pos rfl]
    constructor
    · rfl
    · rfl
  · intro o lines hb
    rw [runOutput, foldl_writeRecordBytes, openStream, hb]
    simp

/-- C6 witness: a two-record stream under each BOM setting, discharging
the hypotheses of `bom_first_and_once`. -/
theorem bom_first_and_once_witness :
    ((runOutput { defaultOpt with Utf8BOM := true } [[65], [66]]).take 3
        = UTF8BOMbytes ∧
      (runOutput { defaultOpt with Utf8BOM := true } [[65], [66]]).drop 3
        = [[65], [66]].flatten) ∧
    runOutput defaultOpt [[65], [66]] = [[65], [66]].flatten :=
  ⟨bom_first_and_once.1 { defaultOpt with Utf8BOM := true } [[65], [66]]
      (by rfl),
    bom_first_and_once.2 defaultOpt [[65], [66]] (by rfl)⟩

/-- Modelled from the spec: an eye event (Fixation, Saccade or Blink)
with its declared start/end timestamps for one eye (section 3, code
missing from `src/`). -/
structure EyeEvent where
  eye : Eye
  stime : Nat
  etime : Nat
deriving DecidableEq, Repr

/-- Modelled from the spec: the consistency condition of section 4.4
(code missing from `src/`): the event's declared start/end brackets a
contiguous Sample run for the same eye, i.e. a sample timestamp is
present at every millisecond tick from start to end inclusive. -/
def bracketsContiguousRun (times : List Nat) (ev : EyeEvent) : Bool :=
  (List.range (ev.etime + 1 - ev.stime)).all
    (fun k => times.contains (ev.stime + k))

/-- Counters accumulated by the Filter & Selection Engine and surfaced
at end of run. -/
structure FilterCounters where
  warnings : Nat
  dropped : Nat
deriving DecidableEq, Repr

/-- Decision of the Filter & Selection Engine for one event. -/
inductive EventDecision where
  | emit
  | drop
  | abort
deriving DecidableEq, Repr

/-- Modelled from the spec: the consistency-check handling of the
Filter & Selection Engine (section 4.4, code missing from `src/`):
when `enable_consistency_check` is set and the event's bracketed sample
run has a gap, a ConsistencyWarning is counted; the event is dropped
when `enable_failsafe` is set and still emitted otherwise; the run is
never aborted. -/
def filterEyeEvent (o : Opt) (times : List Nat) (ev : EyeEvent)
    (c : FilterCounters) : FilterCounters × EventDecision :=
  if o.enable_consistency_check && !(bracketsContiguousRun times ev) then
    if o.enable_failsafe then
      ({ warnings := c.warnings + 1, dropped := c.dropped + 1 }, .drop)
    else
      ({ c with warnings := c.warnings + 1 }, .emit)
  else (c, .emit)

/-- C4: with `enable_consistency_check` set and an event whose declared
start/end does not bracket a contiguous sample run for its eye, exactly
one ConsistencyWarning is counted; the event is still emitted when
`enable_failsafe` is unset and dropped (not emitted) when it is set;
and in both cases the run is not aborted. -/
theorem consistency_check_policy (o : Opt) (times : List Nat)
    (ev : EyeEvent) (c : FilterCounters)
    (hc : o.enable_consistency_check = true)
    (hg : bracketsContiguousRun times ev = false) :
    (filterEyeEvent o times ev c).1.warnings = c.warnings + 1 ∧
    (filterEyeEvent o times ev c).2
      = (if o.enable_failsafe then .drop else .emit) ∧
    (filterEyeEvent o times ev c).2 ≠ .abort := by
  unfold filterEyeEvent
  rw [hc, hg]
  by_cases hf : o.enable_failsafe = true
  · simp [hf]
  · rw [Bool.not_eq_true] at hf
    simp [hf]

/-- Scenario configuration: consistency check on, failsafe off. -/
def optCheckOnly : Opt :=
  { defaultOpt with enable_consistency_check := true }

/-- Scenario configuration: consistency check on, failsafe on. -/
def optCheckFailsafe : Opt :=
  { defaultOpt with enable_consistency_check := true, enable_failsafe := true }

/-- C4 witness: a concrete gapped run (samples at ticks 10 and 12, none
at 11) under both failsafe settings, discharging the hypotheses of
`consistency_check_policy`. -/
theorem consistency_check_policy_witness :
    ((filterEyeEvent optCheckOnly [10, 12] ⟨.left, 10, 12⟩ ⟨0, 0⟩).1.warnings
        = 0 + 1 ∧
      (filterEyeEvent optCheckOnly [10, 12] ⟨.left, 10, 12⟩ ⟨0, 0⟩).2
        = (if optCheckOnly.enable_failsafe then .drop else .emit) ∧
      (filterEyeEvent optCheckOnly [10, 12] ⟨.left, 10, 12⟩ ⟨0, 0⟩).2
        ≠ .abort) ∧
    ((filterEyeEvent optCheckFailsafe [10, 12] ⟨.left, 10, 12⟩ ⟨0, 0⟩).1.warnings
        = 0 + 1 ∧
      (filterEyeEvent optCheckFailsafe [10, 12] ⟨.left, 10, 12⟩ ⟨0, 0⟩).2
        = (if optCheckFailsafe.enable_failsafe then .drop else .emit) ∧
      (filterEyeEvent optCheckFailsafe [10, 12] ⟨.left, 10, 12⟩ ⟨0, 0⟩).2
        ≠ .abort) :=
  ⟨consistency_check_policy optCheckOnly [10, 12] ⟨.left, 10, 12⟩ ⟨0, 0⟩
      (by rfl) (by decide),
    consistency_check_policy optCheckFailsafe [10, 12] ⟨.left, 10, 12⟩ ⟨0, 0⟩
      (by rfl) (by decide)⟩

/-- Modelled from the spec: the tagged Record variant (section 3, code
missing from `src/`), restricted to the kinds the claims exercise, with
the raw-passthrough payload constructor. -/
inductive Record where
  | sample (s : Sample)
  | eyeEvent (ev : EyeEvent)
  | message (m : String)
  | raw (payload : List Nat)
deriving DecidableEq, Repr

/-- Modelled from the spec: a framed item of the binary input stream as
the Record Decoder classifies it (section 4.1, code missing from
`src/`): a well-formed record, a corrupt-but-framed payload, a
truncation point, or a bad magic header. -/
inductive RawItem where
  | good (r : Record)
  | corruptFramed (payload : List Nat)
  | truncated
  | badMagic
deriving DecidableEq, Repr

/-- Decode error taxonomy of section 7. -/
inductive DecodeError where
  | UnexpectedEOF
  | BadMagic
  | CorruptRecord
deriving DecidableEq, Repr

/-- Modelled from the spec: the Record Decoder (section 4.1, code
missing from `src/`): decodes the framed items of one file in order; a
corrupt-but-framed payload aborts with `CorruptRecord` unless
`allow_raw` is set, in which case it is surfaced as a passthrough
Record and decoding continues; truncation and a bad magic header are
fatal per-file in either case. -/
def decodeStream (o : Opt) : List RawItem → Except DecodeError (List Record)
  | [] => .ok []
  | .good r :: rest =>
      match decodeStream o rest with
      | .ok rs => .ok (r :: rs)
      | .error e => .error e
  | .corruptFramed p :: rest =>
      if o.allow_raw then
        match decodeStream o rest with
        | .ok rs => .ok (.raw p :: rs)
        | .error e => .error e
      else .error .CorruptRecord
  | .truncated :: _ => .error .UnexpectedEOF
  | .badMagic :: _ => .error .BadMagic

/-- C8: at a corrupt-but-framed record, decoding aborts with
`CorruptRecord` when `allow_raw` is unset, and surfaces the payload as
a passthrough Record and continues with the rest of the file when
`allow_raw` is set; truncation and a bad magic header are fatal
per-file under either setting. -/
theorem decoder_corrupt_record_policy :
    (∀ (o : Opt) (p : List Nat) (rest : List RawItem),
      o.allow_raw = false →
      decodeStream o (.corruptFramed p :: rest) = .error .CorruptRecord) ∧
    (∀ (o : Opt) (p : List Nat) (rest : List RawItem) (rs : List Record),
      o.allow_raw = true →
      decodeStream o rest = .ok rs →
      decodeStream o (.corruptFramed p :: rest) = .ok (.raw p :: rs)) ∧
    (∀ (o : Opt) (rest : List RawItem),
      decodeStream o (.truncated :: rest) = .error .UnexpectedEOF ∧
      decodeStream o (.badMagic :: rest) = .error .BadMagic) := by
  refine ⟨?_, ?_, ?_⟩
  · intro o p rest ha
    simp [decodeStream, ha]
  · intro o p rest rs ha hrest
    simp [decodeStream, ha, hrest]
  · intro o rest
    exact ⟨rfl, rfl⟩

/-- C8 witness: a concrete stream with one good record and one corrupt
frame under both `allow_raw` settings, discharging the hypotheses of
`decoder_corrupt_record_policy`. -/
theorem decoder_corrupt_record_policy_witness :
    decodeStream defaultOpt
      [.corruptFramed [1, 2], .good (.message "a")]
      = .error .CorruptRecord ∧
    decodeStream { defaultOpt with allow_raw := true }
      [.corruptFramed [1, 2], .good (.message "a")]
      = .ok [.raw [1, 2], .message "a"] :=
  ⟨decoder_corrupt_record_policy.1 defaultOpt [1, 2]
      [.good (.message "a")] (by rfl),
    decoder_corrupt_record_policy.2.1 { defaultOpt with allow_raw := true }
      [1, 2] [.good (.message "a")] [.message "a"] (by rfl) (by rfl)⟩

/-- Modelled from the spec: coordinate transform of one raw value
(section 4.2, code missing from `src/`): the sentinel is propagated
verbatim, any other value is mapped by the gaze affine map of its
axis. -/
def transformCoord (o : Opt) (a : Axis) (v : ℚ) : ℚ :=
  if v == NaN then NaN
  else match a with
    | .x => gazeOfRawX o v
    | .y => gazeOfRawY o v

/-- Modelled from the spec: the Transformer applied to a whole sample:
each per-eye coordinate mapped by its axis transform. -/
def transformSample (o : Opt) (s : Sample) : Sample :=
  { s with
    xl := transformCoord o .x s.xl
    yl := transformCoord o .y s.yl
    xr := transformCoord o .x s.xr
    yr := transformCoord o .y s.yr }

/-- Modelled from the spec: the Decoder stage with its configuration
threaded explicitly (the C pipeline passes the `Opt` aggregate to every
stage; the spec requires each stage to leave it unchanged). -/
def decoderStage (o : Opt) (items : List RawItem) :
    Opt × Except DecodeError (List Record) :=
  (o, decodeStream o items)

/-- Modelled from the spec: the Transformer stage with its
configuration threaded explicitly. -/
def transformerStage (o : Opt) (s : Sample) : Opt × Sample :=
  (o, transformSample o s)

/-- Modelled from the spec: the Velocity Computer stage with its
configuration threaded explicitly. -/
def velocityStage (o : Opt) (run : List Sample) (e : Eye) (a : Axis)
    (i : Nat) : Opt × ℚ :=
  (o, velocityAt o.fast_velocity run e a i)

/-- Modelled from the spec: the Filter & Selection stage with its
configuration threaded explicitly. -/
def filterStage (o : Opt) (times : List Nat) (ev : EyeEvent)
    (c : FilterCounters) : Opt × FilterCounters × EventDecision :=
  (o, filterEyeEvent o times ev c)

/-- Modelled from the spec: the Formatter stage with its configuration
threaded explicitly. -/
def formatterStage (o : Opt) (s : Sample) : Opt × String :=
  (o, formatSampleLine o s)

/-- Modelled from the spec: the configuration value resulting from
pushing one record through the pipeline stages in order (the
configuration as each stage returns it). -/
def pipelineStepOpt (o : Opt) (r : Record) : Opt :=
  match r with
  | .sample s =>
      let (o1, s1) := transformerStage o s
      let (o2, _) := velocityStage o1 [s1] .left .x 0
      (formatterStage o2 s1).1
  | .eyeEvent ev => (filterStage o [] ev ⟨0, 0⟩).1
  | .message _ => o
  | .raw _ => o

/-- C9: every pipeline stage returns the configuration aggregate
unchanged, and a whole conversion run over any record sequence leaves
the configuration equal to the one supplied — the configuration is
read-only for the pipeline, hence safely shareable across concurrent
pipeline instances. -/
theorem config_read_only :
    (∀ (o : Opt) (items : List RawItem), (decoderStage o items).1 = o) ∧
    (∀ (o : Opt) (s : Sample), (transformerStage o s).1 = o) ∧
    (∀ (o : Opt) (run : List Sample) (e : Eye) (a : Axis) (i : Nat),
      (velocityStage o run e a i).1 = o) ∧
    (∀ (o : Opt) (times : List Nat) (ev : EyeEvent) (c : FilterCounters),
      (filterStage o times ev c).1 = o) ∧
    (∀ (o : Opt) (s : Sample), (formatterStage o s).1 = o) ∧
    (∀ (o : Opt) (recs : List Record), recs.foldl pipelineStepOpt o = o) := by
  refine ⟨fun _ _ => rfl, fun _ _ => rfl, fun _ _ _ _ _ => rfl,
    fun _ _ _ _ => rfl, fun _ _ => rfl, ?_⟩
  intro o recs
  induction recs generalizing o with
  | nil => rfl
  | cons r rs ih =>
      have hstep : pipelineStepOpt o r = o := by
        cases r <;> rfl
      rw [List.foldl_cons, hstep, ih]

/-- Missingness test used throughout the pipeline: ordinary equality
comparison of a field value with the `NaN` sentinel. -/
def missingValue (x : ℚ) : Bool := x == NaN

/-- Bound on any computed (non-sentinel) velocity over a run whose
coordinates for the chosen eye and axis are bounded by `B` and whose
timestamps advance by at least one unit per sample: the velocity is
either the sentinel or at most `2 * B` in magnitude. -/
theorem velocityAt_bound (fast : Bool) (run : List Sample) (e : Eye)
    (a : Axis) (i : Nat) (B : ℚ)
    (hcoord : ∀ s ∈ run, |s.coord e a| ≤ B)
    (htimes : List.Chain' (fun u v => u.t + 1 ≤ v.t) run) :
    velocityAt fast run e a i = NaN ∨
      |velocityAt fast run e a i| ≤ 2 * B := by
  unfold velocityAt
  by_cases hb : i = 0 ∨ run.length ≤ i + 1
  · left
    rw [if_pos hb]
  · rw [if_neg hb]
    push_neg at hb
    obtain ⟨hi0, hilen⟩ := hb
    have hip : i - 1 < run.length := by omega
    have hic : i < run.length := by omega
    have hin : i + 1 < run.length := by omega
    rw [List.getElem?_eq_getElem hip, List.getElem?_eq_getElem hic,
      List.getElem?_eq_getElem hin]
    by_cases hm : (missingSample run[i] e || missingSample run[i - 1] e
        || missingSample run[i + 1] e) = true
    · left
      simp only [hm, if_true]
    · right
      rw [Bool.not_eq_true] at hm
      simp only [hm, Bool.false_eq_true, if_false]
      have hstep1 : run[i - 1].t + 1 ≤ run[i].t := by
        have h := List.chain'_iff_get.mp htimes (i - 1) (by omega)
        have hii : i - 1 + 1 = i := by omega
        simpa [List.get_eq_getElem, hii] using h
      have hstep2 : run[i].t + 1 ≤ run[i + 1].t := by
        have h := List.chain'_iff_get.mp htimes i (by omega)
        simpa [List.get_eq_getElem] using h
      have hpB := hcoord run[i - 1] (List.getElem_mem hip)
      have hcB := hcoord run[i] (List.getElem_mem hic)
      have hnB := hcoord run[i + 1] (List.getElem_mem hin)
      split
      · have hd : (1 : ℚ) ≤ run[i].t - run[i - 1].t := by linarith
        calc |(run[i].coord e a - run[i - 1].coord e a)
                / (run[i].t - run[i - 1].t)|
            = |run[i].coord e a - run[i - 1].coord e a|
                / |run[i].t - run[i - 1].t| := abs_div _ _
          _ = |run[i].coord e a - run[i - 1].coord e a|
                / (run[i].t - run[i - 1].t) := by
                have hdpos : (0 : ℚ) < run[i].t - run[i - 1].t := by linarith
                rw [abs_of_pos hdpos]
          _ ≤ |run[i].coord e a - run[i - 1].coord e a| :=
                div_le_self (abs_nonneg _) hd
          _ ≤ |run[i].coord e a| + |run[i - 1].coord e a| := abs_sub _ _
          _ ≤ 2 * B := by linarith
      · have hd : (1 : ℚ) ≤ run[i + 1].t - run[i - 1].t := by linarith
        calc |(run[i + 1].coord e a - run[i - 1].coord e a)
                / (run[i + 1].t - run[i - 1].t)|
            = |run[i + 1].coord e a - run[i - 1].coord e a|
                / |run[i + 1].t - run[i - 1].t| := abs_div _ _
          _ = |run[i + 1].coord e a - run[i - 1].coord e a|
                / (run[i + 1].t - run[i - 1].t) := by
                have hdpos : (0 : ℚ) < run[i + 1].t - run[i - 1].t := by
                  linarith
                rw [abs_of_pos hdpos]
          _ ≤ |run[i + 1].coord e a - run[i - 1].coord e a| :=
                div_le_self (abs_nonneg _) hd
          _ ≤ |run[i + 1].coord e a| + |run[i - 1].coord e a| := abs_sub _ _
          _ ≤ 2 * B := by linarith

/-- C10: despite its name the sentinel `NaN` is the finite number 1e8:
it equals 10^8; it is exactly representable in binary32 (significand
390625 < 2^24 times 2^8) and hence also in binary64 (390625 < 2^53);
it compares equal to itself; missingness of a field is decidable by
ordinary equality comparison with it, so a genuine measurement equal to
1e8 is classified as missing; and it strictly dominates every
legitimate value of the supported geometry: every pixel coordinate of
the default pixel rectangle, every physical coordinate of the default
physical rectangle, the gaze image of the physical rectangle, every
pupil size in the raw device range (modelled as 0..65535), and every
velocity computed (not sentinel) from in-rectangle coordinates over
timestamps advancing at least one unit per sample. -/
theorem sentinel_value_semantics :
    NaN = 100000000 ∧
    390625 < 2 ^ 24 ∧ 390625 < 2 ^ 53 ∧
    (100000000 : ℕ) = 390625 * 2 ^ 8 ∧
    (NaN == NaN) = true ∧
    (∀ x : ℚ, missingValue x = true ↔ x = NaN) ∧
    missingValue 100000000 = true ∧
    (∀ v : ℚ, defaultOpt.screen_pixel_l ≤ v → v ≤ defaultOpt.screen_pixel_r →
      v < NaN) ∧
    (∀ v : ℚ, defaultOpt.screen_phys_l ≤ v → v ≤ defaultOpt.screen_phys_r →
      |v| < NaN) ∧
    (∀ v : ℚ, defaultOpt.screen_phys_l ≤ v → v ≤ defaultOpt.screen_phys_r →
      |gazeOfRawX defaultOpt v| < NaN) ∧
    (∀ p : ℚ, 0 ≤ p → p ≤ 65535 → p < NaN) ∧
    (∀ (fast : Bool) (run : List Sample) (e : Eye) (a : Axis) (i : Nat),
      (∀ s ∈ run, |s.coord e a| ≤ 1023) →
      List.Chain' (fun u v => u.t + 1 ≤ v.t) run →
      velocityAt fast run e a i = NaN ∨
        |velocityAt fast run e a i| < NaN) := by
  refine ⟨rfl, by norm_num, by norm_num, by norm_num, by rfl, ?_, by rfl,
    ?_, ?_, ?_, ?_, ?_⟩
  · intro x
    simp [missingValue]
  · intro v hl hr
    simp only [defaultOpt] at hl hr
    rw [NaN]
    linarith
  · intro v hl hr
    simp only [defaultOpt] at hl hr
    rw [NaN, abs_lt]
    constructor <;> linarith
  · intro v hl hr
    simp only [defaultOpt] at hl hr
    have hform : gazeOfRawX defaultOpt v = (v + 200) * 1023 / 400 := by
      simp only [gazeOfRawX, defaultOpt]
      ring
    rw [hform, NaN, abs_lt]
    constructor <;> linarith
  · intro p hl hr
    rw [NaN]
    linarith
  · intro fast run e a i hcoord htimes
    rcases velocityAt_bound fast run e a i 1023 hcoord htimes with h | h
    · exact Or.inl h
    · refine Or.inr ?_
      rw [NaN]
      linarith

/-- Concrete three-sample run with valid in-rectangle coordinates and
unit time steps, used to instantiate the velocity bound. -/
def boundedRun : List Sample :=
  [⟨0, 1, 2, 3, 4, 5, 6⟩, ⟨1, 7, 8, 9, 10, 11, 12⟩, ⟨2, 2, 3, 4, 5, 6, 7⟩]

/-- C10 witness: concrete values discharging the hypotheses of
`sentinel_value_semantics`. -/
theorem sentinel_value_semantics_witness :
    (missingValue 5 = true ↔ (5 : ℚ) = NaN) ∧
    (512 : ℚ) < NaN ∧
    |(-200 : ℚ)| < NaN ∧
    |gazeOfRawX defaultOpt 0| < NaN ∧
    (900 : ℚ) < NaN ∧
    (velocityAt true boundedRun .left .x 1 = NaN ∨
      |velocityAt true boundedRun .left .x 1| < NaN) :=
  ⟨sentinel_value_semantics.2.2.2.2.2.1 5,
    sentinel_value_semantics.2.2.2.2.2.2.2.1 512 (by decide) (by decide),
    sentinel_value_semantics.2.2.2.2.2.2.2.2.1 (-200) (by decide) (by decide),
    sentinel_value_semantics.2.2.2.2.2.2.2.2.2.1 0 (by decide) (by decide),
    sentinel_value_semantics.2.2.2.2.2.2.2.2.2.2.1 900 (by decide) (by decide),
    sentinel_value_semantics.2.2.2.2.2.2.2.2.2.2.2 true boundedRun .left .x 1
      (by decide)
      (by
        show List.Chain' _ ([_, _, _] : List Sample)
        exact List.chain'_cons.mpr ⟨by norm_num,
          List.chain'_cons.mpr ⟨by norm_num, List.chain'_singleton _⟩⟩)⟩
